import Mathlib

/-!
Shallow embedding of the validation logic of the repository's scripts
`src/scripts/split_parquet.py` and `src/scripts/split_parquet_and_shuffle.py`.

The scripts load a reference dataset and a transformed candidate dataset and
run a battery of `assert`-based checks: metadata counts, per-episode lengths
and tasks, sampled frame contents (via `torch.allclose` with `atol=1e-5` and
torch's default `rtol=1e-5`), decoded video frames, and chunk/file alignment
across the data / video / per-episode-metadata streams.

Tensors of actions are modelled as lists of rationals; decoded images as a
shape list plus a flattened value list; a Python dict access that can raise
`KeyError` / `IndexError` is modelled with `Option`.
-/

namespace LerobotCheck

/-- A decoded image tensor: its shape (as returned by `.shape`) and its
values flattened in row-major order (`img.min()` / `img.max()` range over
exactly these values). -/
structure Image where
  shape : List Nat
  values : List ℚ
deriving DecidableEq

/-- One frame as returned by `dataset[i]`: the `action` vector, the
`episode_index` label, and the decoded image per video key
(`frame[video_key]`, a missing key raising `KeyError` = `none`). -/
structure Frame where
  action : List ℚ
  episode_index : Nat
  images : List (String × Image)
deriving DecidableEq

/-- One entry of `meta.episodes`: length, tasks, the half-open global frame
range, the `data/...` and `meta/episodes/...` chunk/file pairs, and one
chunk/file pair per video key (the source reads
`episodes[i]["videos/" ++ key ++ "/chunk_index"]` etc.). -/
structure EpisodeRecord where
  length : Nat
  tasks : List String
  dataset_from_index : Nat
  dataset_to_index : Nat
  data_chunk_index : Nat
  data_file_index : Nat
  meta_chunk_index : Nat
  meta_file_index : Nat
  videos : List (String × Nat × Nat)
deriving DecidableEq

/-- The `dataset.meta` record as consumed by the scripts. -/
structure DatasetMeta where
  total_episodes : Nat
  total_frames : Nat
  total_tasks : Nat
  fps : ℚ
  video_keys : List String
  episodes : List EpisodeRecord
deriving DecidableEq

/-- A dataset handle: metadata plus indexable frames (`dataset[i]`;
an out-of-range access raises = `none`). -/
structure Dataset where
  meta : DatasetMeta
  frames : List Frame
deriving DecidableEq

/-- The `atol` the scripts pass to `torch.allclose`. -/
def atolDefault : ℚ := 1 / 100000

/-- torch's default `rtol`, which stays in effect because the scripts only
override `atol`. -/
def rtolDefault : ℚ := 1 / 100000

/-- One element of torch's allclose test:
`|input - other| ≤ atol + rtol * |other|`. -/
def closeElem (rtol atol input other : ℚ) : Bool :=
  decide (|input - other| ≤ atol + rtol * |other|)

/-- Model of `torch.allclose(input, other, atol)` on same-shape 1-D tensors
(elementwise; a shape mismatch raises, which like an assert failure aborts
the check, so it is folded into `false` here). -/
def allclose (rtol atol : ℚ) (input other : List ℚ) : Bool :=
  decide (input.length = other.length) &&
    (input.zip other).all fun p => closeElem rtol atol p.1 p.2

/-- Purely absolute elementwise tolerance `|input - other| ≤ atol`, as the
spec's words "within absolute tolerance" describe.  This is the spec-side
comparison, to be contrasted with `allclose` above which the code uses. -/
def absClose (atol : ℚ) (input other : List ℚ) : Bool :=
  decide (input.length = other.length) &&
    (input.zip other).all fun p => decide (|p.1 - p.2| ≤ atol)

/-! ### Checks of `split_parquet.py` -/

/-- Check 1 of both scripts: the four metadata-count asserts. -/
def metadataCheck (ref cand : DatasetMeta) : Bool :=
  decide (cand.total_episodes = ref.total_episodes) &&
  decide (cand.total_frames = ref.total_frames) &&
  decide (cand.total_tasks = ref.total_tasks) &&
  decide (cand.fps = ref.fps)

/-- Body of one iteration of check 2 of `split_parquet.py`: episode `i`'s
`length` fields agree (an out-of-range episode access raises = `false`). -/
def epLengthAt (ref cand : DatasetMeta) (i : Nat) : Bool :=
  match ref.episodes.get? i, cand.episodes.get? i with
  | some r, some c => decide (r.length = c.length)
  | _, _ => false

/-- Body of one iteration of check 3 of `split_parquet.py`: episode `i`'s
`tasks` sequences agree. -/
def epTasksAt (ref cand : DatasetMeta) (i : Nat) : Bool :=
  match ref.episodes.get? i, cand.episodes.get? i with
  | some r, some c => decide (r.tasks = c.tasks)
  | _, _ => false

/-- Check 2 of `split_parquet.py`: episode lengths, looped over
`range(min(10, dataset.meta.total_episodes))`. -/
def episodeLengthCheck (ref cand : DatasetMeta) : Bool :=
  (List.range (min 10 ref.total_episodes)).all (epLengthAt ref cand)

/-- Check 3 of `split_parquet.py`: episode tasks, same loop bound. -/
def episodeTasksCheck (ref cand : DatasetMeta) : Bool :=
  (List.range (min 10 ref.total_episodes)).all (epTasksAt ref cand)

/-- The episode equivalence check of the identity-order script:
checks 2 and 3 together. -/
def episodeEquivCheck (ref cand : DatasetMeta) : Bool :=
  episodeLengthCheck ref cand && episodeTasksCheck ref cand

/-- The `sample_indices` list of check 4 of `split_parquet.py`
(`[0, N // 4, N // 2, 3 * N // 4, N - 1]` built from the reference's
`total_frames`; the `[:num_samples]` slice with `num_samples = 5` keeps
the whole five-element list). -/
def sampleIndices (n : Nat) : List Nat :=
  [0, n / 4, n / 2, 3 * n / 4, n - 1]

/-- Body of one iteration of check 4 of `split_parquet.py`: fetch the frame
at index `idx` from both datasets, compare the `action` vectors with
`torch.allclose(..., atol=1e-5)` and the `episode_index` labels exactly. -/
def frameSampleAt (ref cand : Dataset) (idx : Nat) : Bool :=
  match ref.frames.get? idx, cand.frames.get? idx with
  | some o, some a =>
      allclose rtolDefault atolDefault o.action a.action &&
        decide (o.episode_index = a.episode_index)
  | _, _ => false

/-- Check 4 of `split_parquet.py`: the sampled-frame comparison loop. -/
def frameContentCheck (ref cand : Dataset) : Bool :=
  (sampleIndices ref.meta.total_frames).all (frameSampleAt ref cand)

/-- Spec-side variant of `frameSampleAt` with the purely absolute tolerance
the claim wording states. -/
def absCloseAt (ref cand : Dataset) (idx : Nat) : Bool :=
  match ref.frames.get? idx, cand.frames.get? idx with
  | some o, some a =>
      absClose atolDefault o.action a.action &&
        decide (o.episode_index = a.episode_index)
  | _, _ => false

/-- Why a video-frame assert fired.  `accessError` stands for a raised
`IndexError` / `KeyError` / empty-tensor reduction rather than a failed
assert. -/
inductive VideoFailReason
  | accessError
  | invalidShape
  | invalidRange
deriving DecidableEq

/-- Model of `frame = cand[0]; img = frame[video_key]` of check 5. -/
def lookupImage (cand : Dataset) (k : String) : Option Image :=
  (cand.frames.get? 0).bind fun f => f.images.lookup k

/-- Model of `img.dim() == 3 and img.shape[0] == 3` of check 5. -/
def imageShapeOk (img : Image) : Bool :=
  decide (img.shape.length = 3) && decide (img.shape.headD 0 = 3)

/-- Model of `img.min() >= 0 and img.max() <= 1` of check 5 (on an empty tensor both
reductions raise, handled by the caller). -/
def imageRangeOk (img : Image) : Bool :=
  match img.values.min?, img.values.max? with
  | some mn, some mx => decide (0 ≤ mn) && decide (mx ≤ 1)
  | _, _ => false

/-- The two asserts of check 5 for a single video key, with the reason for
the first failure. -/
def videoKeyFailure (cand : Dataset) (k : String) : Option VideoFailReason :=
  match lookupImage cand k with
  | none => some VideoFailReason.accessError
  | some img =>
    if imageShapeOk img = false then some VideoFailReason.invalidShape
    else if img.values.isEmpty then some VideoFailReason.accessError
    else if imageRangeOk img = false then some VideoFailReason.invalidRange
    else none

/-- Check 5 of both scripts: loop over `video_keys`, stopping at the first
key whose asserts fail (`none` = all pass). -/
def videoCheck (cand : Dataset) : Option (String × VideoFailReason) :=
  cand.meta.video_keys.findSome? fun k =>
    (videoKeyFailure cand k).map fun r => (k, r)

/-- The three streams whose chunk/file pairs check 6 compares. -/
inductive StreamId
  | dataStream
  | videoStream
  | metaStream
deriving DecidableEq

/-- The (chunk_index, file_index) pair an episode record stores for a
stream (the video stream is keyed by the first video key). -/
def epStreamPair (e : EpisodeRecord) (firstKey : String) :
    StreamId → Option (Nat × Nat)
  | StreamId.dataStream => some (e.data_chunk_index, e.data_file_index)
  | StreamId.videoStream => e.videos.lookup firstKey
  | StreamId.metaStream => some (e.meta_chunk_index, e.meta_file_index)

/-- Result of check 6. -/
inductive AlignResult
  | pass
  | mismatch (ep : Nat) (a b : StreamId)
  | accessError
deriving DecidableEq

/-- One iteration of check 6: compare the data pair with the first video
key's pair and with the meta pair for episode `i` (`none` = both asserts
hold). -/
def alignEpisodeFailure (m : DatasetMeta) (firstKey : String) (i : Nat) :
    Option AlignResult :=
  match m.episodes.get? i with
  | none => some AlignResult.accessError
  | some e =>
    match e.videos.lookup firstKey with
    | none => some AlignResult.accessError
    | some vp =>
      if (e.data_chunk_index, e.data_file_index) = vp then
        if (e.data_chunk_index, e.data_file_index)
            = (e.meta_chunk_index, e.meta_file_index) then none
        else some (AlignResult.mismatch i StreamId.dataStream StreamId.metaStream)
      else some (AlignResult.mismatch i StreamId.dataStream StreamId.videoStream)

/-- Check 6 of both scripts: `first_video_key = meta.video_keys[0]` (raises
on an empty key list), then the alignment loop over
`range(min(20, total_episodes))`, stopping at the first failed assert. -/
def alignmentCheck (m : DatasetMeta) : AlignResult :=
  match m.video_keys.head? with
  | none => AlignResult.accessError
  | some k =>
    match (List.range (min 20 m.total_episodes)).findSome?
        (alignEpisodeFailure m k) with
    | some r => r
    | none => AlignResult.pass

/-- The validation stages of `split_parquet.py`, in source order. -/
inductive Stage
  | metadata
  | episodeLengths
  | episodeTasks
  | frameSamples
  | videoDecode
  | fileAlignment
deriving DecidableEq

/-- All stages in the order the script runs them. -/
def allStages : List Stage :=
  [Stage.metadata, Stage.episodeLengths, Stage.episodeTasks,
   Stage.frameSamples, Stage.videoDecode, Stage.fileAlignment]

/-- Whether a given stage's asserts all hold for a reference/candidate
pair. -/
def stagePasses (ref cand : Dataset) : Stage → Bool
  | Stage.metadata => metadataCheck ref.meta cand.meta
  | Stage.episodeLengths => episodeLengthCheck ref.meta cand.meta
  | Stage.episodeTasks => episodeTasksCheck ref.meta cand.meta
  | Stage.frameSamples => frameContentCheck ref cand
  | Stage.videoDecode => (videoCheck cand).isNone
  | Stage.fileAlignment => decide (alignmentCheck cand.meta = AlignResult.pass)

/-- Run stages in order with `assert` semantics: a failed assert raises and
aborts the script, so execution stops right after the first failing stage.
The returned list records each executed stage and its outcome. -/
def runStages (f : Stage → Bool) : List Stage → List (Stage × Bool)
  | [] => []
  | s :: rest => if f s then (s, true) :: runStages f rest else [(s, false)]

/-- The whole validation section of `split_parquet.py`. -/
def runValidation (ref cand : Dataset) : List (Stage × Bool) :=
  runStages (stagePasses ref cand) allStages

/-- The identity-order check passes as a whole iff every stage's asserts
hold. -/
def fullCheck (ref cand : Dataset) : Bool :=
  allStages.all (stagePasses ref cand)

/-! ### Checks of `split_parquet_and_shuffle.py` -/

/-- The `for i in range(start, min(start + 10, end))` loop of
`get_episode_actions`: collect `ds[i]["action"]` for each index, a raised
frame access propagating as `none`. -/
def collectActions (ds : Dataset) : List Nat → Option (List (List ℚ))
  | [] => some []
  | i :: rest =>
    match ds.frames.get? i with
    | none => none
    | some f =>
      match collectActions ds rest with
      | none => none
      | some acc => some (f.action :: acc)

/-- Model of `get_episode_actions(ds, ep_idx)`: the `action` vectors of the first up
to 10 frames of an episode, `torch.stack`-ed.  `none` models a raised
exception: an out-of-range episode or frame access, or `torch.stack` on an
empty or ragged list of action vectors. -/
def getEpisodeActions (ds : Dataset) (epIdx : Nat) : Option (List (List ℚ)) :=
  match ds.meta.episodes.get? epIdx with
  | none => none
  | some e =>
    let lo := e.dataset_from_index
    let hi := min (lo + 10) e.dataset_to_index
    match collectActions ds (List.range' lo (hi - lo)) with
    | none => none
    | some acts =>
      if acts.isEmpty then none
      else if acts.all (fun a => decide (a.length = (acts.headD []).length))
      then some acts
      else none

/-- Model of `shuffled_actions.shape == original_actions.shape` on the stacked
tensors (both are `(num_frames, action_dim)`-shaped with uniform rows, as
`getEpisodeActions` guarantees). -/
def stackShapeEq (a b : List (List ℚ)) : Bool :=
  decide (a.length = b.length) &&
    decide ((a.headD []).length = (b.headD []).length)

/-- The inner comparison of check 4 of the shuffle script: equal stacked
shape and `torch.allclose(shuffled_actions, original_actions, atol=1e-5)`
(elementwise over the flattened tensors). -/
def episodeMatchB (candActs origActs : List (List ℚ)) : Bool :=
  stackShapeEq candActs origActs &&
    allclose rtolDefault atolDefault candActs.flatten origActs.flatten

/-- The inner `for old_idx in range(dataset.meta.total_episodes)` search of
check 4: any exception while fetching a reference episode's actions is
caught by the `except Exception: continue` and that episode is skipped. -/
def findMatchingEpisode (ref : Dataset) (candActs : List (List ℚ)) : Bool :=
  (List.range ref.meta.total_episodes).any fun oldIdx =>
    match getEpisodeActions ref oldIdx with
    | none => false
    | some origActs => episodeMatchB candActs origActs

/-- One tested candidate episode of check 4.  The candidate-side fetch sits
outside the `try`, so its exception propagates (`none`); the search itself
only returns a boolean. -/
def episodeIntegrityAt (ref cand : Dataset) (newIdx : Nat) : Option Bool :=
  match getEpisodeActions cand newIdx with
  | none => none
  | some acts => some (findMatchingEpisode ref acts)

/-- The `check_indices` list of the shuffle script's check 4 (the `[:3]` slice keeps
the whole three-element list). -/
def shuffleCheckIndices (n : Nat) : List Nat :=
  [0, n / 2, n - 1]

/-- The loop of check 4 with `assert` semantics: a failed `found_match`
assert aborts (`some false`), a propagated candidate-side exception aborts
(`none`), otherwise the remaining indices are processed. -/
def runEpisodeIntegrity (ref cand : Dataset) : List Nat → Option Bool
  | [] => some true
  | i :: rest =>
    match getEpisodeActions cand i with
    | none => none
    | some acts =>
      if findMatchingEpisode ref acts then runEpisodeIntegrity ref cand rest
      else some false

/-- Check 4 of the shuffle script as a whole. -/
def frameDataIntegrityCheck (ref cand : Dataset) : Option Bool :=
  runEpisodeIntegrity ref cand (shuffleCheckIndices cand.meta.total_episodes)

/-- Spec-side predicate for claim C3: a reference episode exists whose
first up-to-10 action vectors have the candidate's stacked shape and are
elementwise within the purely absolute tolerance `atolDefault`. -/
def existsAbsMatch (ref : Dataset) (candActs : List (List ℚ)) : Bool :=
  (List.range ref.meta.total_episodes).any fun oldIdx =>
    match getEpisodeActions ref oldIdx with
    | none => false
    | some origActs =>
      stackShapeEq candActs origActs &&
        absClose atolDefault candActs.flatten origActs.flatten

/-- Spec-side predicate for claim C3 at one tested candidate episode. -/
def absMatchAt (ref cand : Dataset) (idx : Nat) : Bool :=
  match getEpisodeActions cand idx with
  | none => false
  | some acts => existsAbsMatch ref acts

/-- Model of `[tuple(meta.episodes[i]["tasks"]) for i in range(n)]` (`none` models
an out-of-range episode access). -/
def firstTasks (m : DatasetMeta) (n : Nat) : Option (List (List String)) :=
  (List.range n).mapM fun i => (m.episodes.get? i).map EpisodeRecord.tasks

/-- Outcome of check 7 of the shuffle script (the order-change negative
check). -/
inductive OrderCheckResult
  | passed
  | failed
  | inconclusiveSameTask
  | skippedTooFew
  | accessError
deriving DecidableEq

/-- Check 7 of the shuffle script: only run when
`dataset.meta.total_episodes >= 5`; compare the first
`min(10, total_episodes)` task tuples; the assert only fires when the
reference's first tuples contain at least two distinct values
(`len(set(original_first_tasks)) > 1`); otherwise an advisory message is
printed instead. -/
def shuffleOrderCheck (ref cand : DatasetMeta) : OrderCheckResult :=
  if 5 ≤ ref.total_episodes then
    let n := min 10 ref.total_episodes
    match firstTasks ref n, firstTasks cand n with
    | some ot, some st =>
      if 1 < ot.dedup.length then
        if decide (ot = st) then OrderCheckResult.failed
        else OrderCheckResult.passed
      else OrderCheckResult.inconclusiveSameTask
    | _, _ => OrderCheckResult.accessError
  else OrderCheckResult.skippedTooFew

/-! ### Concrete datasets used as counterexamples and witnesses -/

/-- A default well-formed episode record used to build the examples. -/
def epBase : EpisodeRecord :=
  { length := 1, tasks := ["t"], dataset_from_index := 0,
    dataset_to_index := 1, data_chunk_index := 0, data_file_index := 0,
    meta_chunk_index := 0, meta_file_index := 0, videos := [("cam", (0, 0))] }

/-- Reference metadata for claim C1: 11 identical episodes. -/
def metaC1ref : DatasetMeta :=
  { total_episodes := 11, total_frames := 11, total_tasks := 1, fps := 10,
    video_keys := [], episodes := List.replicate 11 epBase }

/-- Candidate metadata for claim C1: agrees with `metaC1ref` on the first
10 episodes but episode 10 has a different length. -/
def metaC1cand : DatasetMeta :=
  { metaC1ref with
    episodes := List.replicate 10 epBase ++ [{ epBase with length := 2 }] }

/-- Reference metadata for the claim C2 witness. -/
def metaC2ref : DatasetMeta :=
  { total_episodes := 1, total_frames := 100, total_tasks := 1, fps := 10,
    video_keys := [], episodes := [epBase] }

/-- Candidate metadata for the claim C2 witness: one frame fewer. -/
def metaC2cand : DatasetMeta :=
  { metaC2ref with total_frames := 99 }

/-- A frame whose action value is exactly 2. -/
def frameTwo : Frame :=
  { action := [2], episode_index := 0, images := [] }

/-- A frame whose action value is `2 + 3/200000`: farther than `1e-5` from
2, but within `atol + rtol * 2 = 3e-5`. -/
def frameTwoEps : Frame :=
  { action := [2 + 3 / 200000], episode_index := 0, images := [] }

/-- Reference dataset for claims C3 and C5: one episode, one frame. -/
def dsNearRef : Dataset :=
  { meta := { total_episodes := 1, total_frames := 1, total_tasks := 1,
              fps := 10, video_keys := [], episodes := [epBase] },
    frames := [frameTwo] }

/-- Candidate dataset for claims C3 and C5: the same layout with the
slightly perturbed action value. -/
def dsNearCand : Dataset :=
  { dsNearRef with frames := [frameTwoEps] }

/-- Spec-side statement of claim C1: the per-episode length/tasks equality
quantified over every ordinal in `[0, total_episodes)`. -/
def episodeEquivSpec (ref cand : DatasetMeta) : Prop :=
  ∀ i, i < ref.total_episodes →
    (epLengthAt ref cand i = true ∧ epTasksAt ref cand i = true)

/-- A key is accessible for the video check: `cand[0][k]` exists and its
value tensor is nonempty (so `img.min()` / `img.max()` do not raise). -/
def videoKeyAccessOk (cand : Dataset) (k : String) : Bool :=
  match lookupImage cand k with
  | some img => !img.values.isEmpty
  | none => false

/-- An image with a valid channel-first shape but a pixel value of 2, as a
[0,255]-scaled decode would produce. -/
def imgBad : Image :=
  { shape := [3, 1, 1], values := [2] }

/-- An image with a valid channel-first shape and pixel values in [0,1]. -/
def imgGood : Image :=
  { shape := [3, 1, 1], values := [1] }

/-- A frame carrying an action vector and one decoded camera image. -/
def frameWithCam (img : Image) : Frame :=
  { action := [1], episode_index := 0, images := [("cam", img)] }

/-- Metadata of a one-episode dataset with a single video key whose
chunk/file pairs are aligned. -/
def metaOneCam : DatasetMeta :=
  { total_episodes := 1, total_frames := 1, total_tasks := 1, fps := 10,
    video_keys := ["cam"], episodes := [epBase] }

/-- A dataset that is internally consistent except that its decoded video
frame holds the out-of-range pixel value 2. -/
def dsBadVideo : Dataset :=
  { meta := metaOneCam, frames := [frameWithCam imgBad] }

/-- A fully well-formed one-episode dataset. -/
def dsGood : Dataset :=
  { meta := metaOneCam, frames := [frameWithCam imgGood] }

/-- An episode record whose tasks list holds the single task `t`. -/
def epTask (t : String) : EpisodeRecord :=
  { epBase with tasks := [t] }

/-- Metadata with four episodes of alternating tasks: two distinct task
tuples among the sampled prefix, yet below the script's five-episode
threshold for the order-change check. -/
def metaC8ref : DatasetMeta :=
  { total_episodes := 4, total_frames := 4, total_tasks := 2, fps := 10,
    video_keys := [], episodes := [epTask "A", epTask "B", epTask "A", epTask "B"] }

/-- Candidate metadata for the claim C8 counterexample: the same episode
contents in the same order as `metaC8ref` (a transform that silently
no-oped). -/
def metaC8cand : DatasetMeta :=
  { total_episodes := 4, total_frames := 4, total_tasks := 2, fps := 10,
    video_keys := [], episodes := [epTask "A", epTask "B", epTask "A", epTask "B"] }

/-- Metadata with five episodes of alternating tasks, used to witness the
order-change check actually firing. -/
def metaC8w : DatasetMeta :=
  { total_episodes := 5, total_frames := 5, total_tasks := 2, fps := 10,
    video_keys := [],
    episodes := [epTask "A", epTask "B", epTask "A", epTask "B", epTask "A"] }

/-- Reference for the claim C9 counterexample: an empty dataset. -/
def dsFramesRef : Dataset :=
  { meta := { total_episodes := 0, total_frames := 1, total_tasks := 0,
              fps := 10, video_keys := [], episodes := [] },
    frames := [] }

/-- Candidate for the claim C9 counterexample: differs from `dsFramesRef`
only in `total_frames`, so the very first stage's assert fails. -/
def dsFramesCand : Dataset :=
  { dsFramesRef with
    meta := { dsFramesRef.meta with total_frames := 2 } }

/-- An episode whose global frame range is empty, so fetching its actions
raises (`torch.stack` of an empty list). -/
def epEmpty : EpisodeRecord :=
  { epBase with dataset_to_index := 0 }

/-- Reference dataset for the claim C10 witness: episode 0's action fetch
raises and is skipped, episode 1 matches the candidate. -/
def dsSkipRef : Dataset :=
  { meta := { total_episodes := 2, total_frames := 1, total_tasks := 1,
              fps := 10, video_keys := [], episodes := [epEmpty, epBase] },
    frames := [frameTwo] }

/-- Candidate dataset for the claim C10 witness. -/
def dsSkipCand : Dataset :=
  { meta := { total_episodes := 1, total_frames := 1, total_tasks := 1,
              fps := 10, video_keys := [], episodes := [epBase] },
    frames := [frameTwo] }

/-! ### Helper lemmas -/

lemma allclose_eq_true_iff (rtol atol : ℚ) (a b : List ℚ) :
    allclose rtol atol a b = true ↔
      a.length = b.length ∧
        ∀ p ∈ a.zip b, |p.1 - p.2| ≤ atol + rtol * |p.2| := by
  simp [allclose, closeElem, List.all_eq_true]

lemma mem_zip_self (p : ℚ × ℚ) :
    ∀ a : List ℚ, p ∈ a.zip a → p.1 = p.2 := by
  intro a
  induction a with
  | nil => intro h; cases h
  | cons x t ih =>
    intro h
    rw [List.zip_cons_cons, List.mem_cons] at h
    rcases h with h | h
    · rw [h]
    · exact ih h

lemma allclose_self (rtol atol : ℚ) (h1 : 0 ≤ rtol) (h2 : 0 ≤ atol)
    (a : List ℚ) : allclose rtol atol a a = true := by
  rw [allclose_eq_true_iff]
  refine ⟨rfl, fun p hp => ?_⟩
  rw [mem_zip_self p a hp, sub_self, abs_zero]
  exact add_nonneg h2 (mul_nonneg h1 (abs_nonneg _))

lemma epLengthAt_self (m : DatasetMeta) (i : Nat) (h : i < m.episodes.length) :
    epLengthAt m m i = true := by
  rcases hv : m.episodes.get? i with _ | e
  · rw [List.get?_eq_none] at hv
    omega
  · unfold epLengthAt
    rw [hv]
    simp

lemma epTasksAt_self (m : DatasetMeta) (i : Nat) (h : i < m.episodes.length) :
    epTasksAt m m i = true := by
  rcases hv : m.episodes.get? i with _ | e
  · rw [List.get?_eq_none] at hv
    omega
  · unfold epTasksAt
    rw [hv]
    simp

lemma frameSampleAt_eq_true_iff (ref cand : Dataset) (idx : Nat) :
    frameSampleAt ref cand idx = true ↔
      ∃ o a, ref.frames.get? idx = some o ∧ cand.frames.get? idx = some a ∧
        allclose rtolDefault atolDefault o.action a.action = true ∧
        o.episode_index = a.episode_index := by
  unfold frameSampleAt
  rcases ho : ref.frames.get? idx with _ | o <;>
    rcases ha : cand.frames.get? idx with _ | a <;> simp

lemma sampleIndices_lt (n : Nat) (h : 1 ≤ n) :
    ∀ idx ∈ sampleIndices n, idx < n := by
  intro idx hidx
  simp only [sampleIndices, List.mem_cons, List.not_mem_nil, or_false] at hidx
  rcases hidx with rfl | rfl | rfl | rfl | rfl
  · omega
  · exact Nat.div_lt_self (by omega) (by omega)
  · exact Nat.div_lt_self (by omega) (by omega)
  · rw [Nat.div_lt_iff_lt_mul (by omega)]
    omega
  · omega

lemma frameSampleAt_self (d : Dataset) (idx : Nat) (h : idx < d.frames.length) :
    frameSampleAt d d idx = true := by
  rcases hv : d.frames.get? idx with _ | f
  · rw [List.get?_eq_none] at hv
    omega
  · rw [frameSampleAt_eq_true_iff]
    exact ⟨f, f, hv, hv,
      allclose_self _ _ (by norm_num [rtolDefault]) (by norm_num [atolDefault]) _,
      rfl⟩

lemma imageRangeOk_eq_true_iff (img : Image) (hne : img.values ≠ []) :
    imageRangeOk img = true ↔ ∀ v ∈ img.values, 0 ≤ v ∧ v ≤ 1 := by
  unfold imageRangeOk
  rcases hmn : img.values.min? with _ | mn
  · rw [List.min?_eq_none_iff] at hmn
    exact absurd hmn hne
  · rcases hmx : img.values.max? with _ | mx
    · rw [List.max?_eq_none_iff] at hmx
      exact absurd hmx hne
    · simp only [Bool.and_eq_true, decide_eq_true_eq]
      constructor
      · rintro ⟨h0, h1⟩ v hv
        have hlo := (List.le_min?_iff (fun a b c => le_min_iff) hmn).mp h0 v hv
        have hhi := (List.max?_le_iff (fun a b c => max_le_iff) hmx).mp h1 v hv
        exact ⟨hlo, hhi⟩
      · intro hall
        have hmnmem : mn ∈ img.values := List.min?_mem (fun a b => min_choice a b) hmn
        have hmxmem : mx ∈ img.values := List.max?_mem (fun a b => max_choice a b) hmx
        exact ⟨(hall mn hmnmem).1, (hall mx hmxmem).2⟩

lemma findMatchingEpisode_eq_true_iff (ref : Dataset) (candActs : List (List ℚ)) :
    findMatchingEpisode ref candActs = true ↔
      ∃ j, j < ref.meta.total_episodes ∧ ∃ a,
        getEpisodeActions ref j = some a ∧ episodeMatchB candActs a = true := by
  unfold findMatchingEpisode
  rw [List.any_eq_true]
  constructor
  · rintro ⟨j, hj, hpred⟩
    rw [List.mem_range] at hj
    rcases hf : getEpisodeActions ref j with _ | a
    · rw [hf] at hpred
      cases hpred
    · rw [hf] at hpred
      exact ⟨j, hj, a, hf, hpred⟩
  · rintro ⟨j, hj, a, hf, hm⟩
    refine ⟨j, List.mem_range.mpr hj, ?_⟩
    rw [hf]
    exact hm

lemma runEpisodeIntegrity_eq_some_true_iff (ref cand : Dataset) (l : List Nat) :
    runEpisodeIntegrity ref cand l = some true ↔
      ∀ i ∈ l, ∃ acts, getEpisodeActions cand i = some acts ∧
        findMatchingEpisode ref acts = true := by
  induction l with
  | nil => simp [runEpisodeIntegrity]
  | cons i rest ih =>
    rcases hf : getEpisodeActions cand i with _ | acts
    · simp only [runEpisodeIntegrity, hf]
      simp [List.forall_mem_cons, hf]
    · rcases hm : findMatchingEpisode ref acts with _ | _
      · simp only [runEpisodeIntegrity, hf, hm]
        simp [List.forall_mem_cons, hf, hm]
      · simp only [runEpisodeIntegrity, hf, hm]
        simp [List.forall_mem_cons, hf, hm, ih]

lemma alignEpisodeFailure_eq_none_iff (m : DatasetMeta) (k : String) (i : Nat) :
    alignEpisodeFailure m k i = none ↔
      ∃ e, m.episodes.get? i = some e ∧ ∃ vp, e.videos.lookup k = some vp ∧
        (e.data_chunk_index, e.data_file_index) = vp ∧
        (e.data_chunk_index, e.data_file_index)
          = (e.meta_chunk_index, e.meta_file_index) := by
  rcases hv : m.episodes.get? i with _ | e
  · have heq : alignEpisodeFailure m k i = some AlignResult.accessError := by
      simp only [alignEpisodeFailure, hv]
    rw [heq]
    refine iff_of_false (by simp) ?_
    rintro ⟨e2, he2, -⟩
    cases he2
  · rcases hl : e.videos.lookup k with _ | vp
    · have heq : alignEpisodeFailure m k i = some AlignResult.accessError := by
        simp only [alignEpisodeFailure, hv, hl]
      rw [heq]
      refine iff_of_false (by simp) ?_
      rintro ⟨e2, he2, vp2, hvp2, -⟩
      rw [Option.some_inj] at he2
      subst he2
      rw [hl] at hvp2
      cases hvp2
    · have heq : alignEpisodeFailure m k i =
          (if (e.data_chunk_index, e.data_file_index) = vp then
            if (e.data_chunk_index, e.data_file_index)
                = (e.meta_chunk_index, e.meta_file_index) then none
            else some (AlignResult.mismatch i StreamId.dataStream
              StreamId.metaStream)
          else some (AlignResult.mismatch i StreamId.dataStream
            StreamId.videoStream)) := by
        simp only [alignEpisodeFailure, hv, hl]
      rw [heq]
      by_cases h1 : (e.data_chunk_index, e.data_file_index) = vp
      · by_cases h2 : (e.data_chunk_index, e.data_file_index)
            = (e.meta_chunk_index, e.meta_file_index)
        · rw [if_pos h1, if_pos h2]
          exact iff_of_true rfl ⟨e, rfl, vp, hl, h1, h2⟩
        · rw [if_pos h1, if_neg h2]
          refine iff_of_false (by simp) ?_
          rintro ⟨e2, he2, vp2, hvp2, -, hm⟩
          rw [Option.some_inj] at he2
          subst he2
          exact h2 hm
      · rw [if_neg h1]
        refine iff_of_false (by simp) ?_
        rintro ⟨e2, he2, vp2, hvp2, hd, -⟩
        rw [Option.some_inj] at he2
        subst he2
        rw [hl, Option.some_inj] at hvp2
        subst hvp2
        exact h1 hd

lemma alignEpisodeFailure_ne_pass (m : DatasetMeta) (k : String) (i : Nat)
    (r : AlignResult) (h : alignEpisodeFailure m k i = some r) :
    r ≠ AlignResult.pass := by
  rcases hv : m.episodes.get? i with _ | e
  · rw [show alignEpisodeFailure m k i = some AlignResult.accessError by
      simp only [alignEpisodeFailure, hv], Option.some_inj] at h
    subst h
    simp
  · rcases hl : e.videos.lookup k with _ | vp
    · rw [show alignEpisodeFailure m k i = some AlignResult.accessError by
        simp only [alignEpisodeFailure, hv, hl], Option.some_inj] at h
      subst h
      simp
    · rw [show alignEpisodeFailure m k i =
          (if (e.data_chunk_index, e.data_file_index) = vp then
            if (e.data_chunk_index, e.data_file_index)
                = (e.meta_chunk_index, e.meta_file_index) then none
            else some (AlignResult.mismatch i StreamId.dataStream
              StreamId.metaStream)
          else some (AlignResult.mismatch i StreamId.dataStream
            StreamId.videoStream)) by
          simp only [alignEpisodeFailure, hv, hl]] at h
      by_cases h1 : (e.data_chunk_index, e.data_file_index) = vp
      · by_cases h2 : (e.data_chunk_index, e.data_file_index)
            = (e.meta_chunk_index, e.meta_file_index)
        · rw [if_pos h1, if_pos h2] at h
          cases h
        · rw [if_pos h1, if_neg h2, Option.some_inj] at h
          subst h
          simp
      · rw [if_neg h1, Option.some_inj] at h
        subst h
        simp

lemma alignEpisodeFailure_mismatch (m : DatasetMeta) (k : String)
    (i j : Nat) (a b : StreamId)
    (h : alignEpisodeFailure m k i = some (AlignResult.mismatch j a b)) :
    j = i ∧ ∃ e, m.episodes.get? i = some e ∧
      epStreamPair e k a ≠ epStreamPair e k b := by
  rcases hv : m.episodes.get? i with _ | e
  · rw [show alignEpisodeFailure m k i = some AlignResult.accessError by
      simp only [alignEpisodeFailure, hv], Option.some_inj] at h
    cases h
  · rcases hl : e.videos.lookup k with _ | vp
    · rw [show alignEpisodeFailure m k i = some AlignResult.accessError by
        simp only [alignEpisodeFailure, hv, hl], Option.some_inj] at h
      cases h
    · rw [show alignEpisodeFailure m k i =
          (if (e.data_chunk_index, e.data_file_index) = vp then
            if (e.data_chunk_index, e.data_file_index)
                = (e.meta_chunk_index, e.meta_file_index) then none
            else some (AlignResult.mismatch i StreamId.dataStream
              StreamId.metaStream)
          else some (AlignResult.mismatch i StreamId.dataStream
            StreamId.videoStream)) by
          simp only [alignEpisodeFailure, hv, hl]] at h
      by_cases h1 : (e.data_chunk_index, e.data_file_index) = vp
      · by_cases h2 : (e.data_chunk_index, e.data_file_index)
            = (e.meta_chunk_index, e.meta_file_index)
        · rw [if_pos h1, if_pos h2] at h
          cases h
        · rw [if_pos h1, if_neg h2, Option.some_inj] at h
          cases h
          exact ⟨rfl, e, rfl, by simp [epStreamPair, h2]⟩
      · rw [if_neg h1, Option.some_inj] at h
        cases h
        refine ⟨rfl, e, rfl, ?_⟩
        simp only [epStreamPair, hl, ne_eq, Option.some_inj]
        exact h1

lemma videoKeyFailure_expand (cand : Dataset) (k : String) (img : Image)
    (hl : lookupImage cand k = some img) :
    videoKeyFailure cand k =
      (if imageShapeOk img = false then some VideoFailReason.invalidShape
       else if img.values.isEmpty then some VideoFailReason.accessError
       else if imageRangeOk img = false then some VideoFailReason.invalidRange
       else none) := by
  simp only [videoKeyFailure, hl]

lemma videoKeyFailure_expand2 (cand : Dataset) (k : String) (img : Image)
    (hl : lookupImage cand k = some img) (hne : img.values ≠ [])
    (hs : imageShapeOk img = true) :
    videoKeyFailure cand k =
      (if imageRangeOk img = false then some VideoFailReason.invalidRange
       else none) := by
  have hemp : img.values.isEmpty = false := by
    simpa [List.isEmpty_iff] using hne
  rw [videoKeyFailure_expand cand k img hl, hs, hemp]
  rw [if_neg (by simp), if_neg (by simp)]

lemma videoKeyFailure_eq_none_iff (cand : Dataset) (k : String) (img : Image)
    (hl : lookupImage cand k = some img) (hne : img.values ≠ []) :
    videoKeyFailure cand k = none ↔
      (imageShapeOk img = true ∧ ∀ v ∈ img.values, 0 ≤ v ∧ v ≤ 1) := by
  rcases hs : imageShapeOk img with _ | _
  · rw [videoKeyFailure_expand cand k img hl, hs, if_pos rfl]
    refine iff_of_false (by simp) ?_
    rintro ⟨h, -⟩
    cases h
  · rw [videoKeyFailure_expand2 cand k img hl hne hs]
    rcases hr : imageRangeOk img with _ | _
    · rw [if_pos rfl]
      refine iff_of_false (by simp) ?_
      rintro ⟨-, hall⟩
      rw [← imageRangeOk_eq_true_iff img hne, hr] at hall
      cases hall
    · rw [if_neg (by simp)]
      exact iff_of_true rfl ⟨rfl, (imageRangeOk_eq_true_iff img hne).mp hr⟩

lemma videoKeyFailure_of_wf (cand : Dataset) (k : String) (img : Image)
    (hl : lookupImage cand k = some img) (hne : img.values ≠ [])
    (hs : imageShapeOk img = true) :
    videoKeyFailure cand k = none ∨
      videoKeyFailure cand k = some VideoFailReason.invalidRange := by
  rw [videoKeyFailure_expand2 cand k img hl hne hs]
  rcases hr : imageRangeOk img with _ | _
  · right
    rw [if_pos rfl]
  · left
    rw [if_neg (by simp)]

lemma videoKeyAccessOk_iff (cand : Dataset) (k : String) :
    videoKeyAccessOk cand k = true ↔
      ∃ img, lookupImage cand k = some img ∧ img.values ≠ [] := by
  unfold videoKeyAccessOk
  rcases hl : lookupImage cand k with _ | img
  · simp
  · simp [List.isEmpty_iff]

lemma runStages_map_fst (f : Stage → Bool) (l : List Stage) :
    (runStages f l).map Prod.fst =
      l.take (l.findIdx (fun s => !f s) + 1) := by
  induction l with
  | nil => rfl
  | cons s rest ih =>
    rcases hs : f s with _ | _
    · simp [runStages, hs, List.findIdx_cons]
    · simp [runStages, hs, List.findIdx_cons, ih]

lemma runStages_mem (f : Stage → Bool) (l : List Stage) :
    ∀ s b, (s, b) ∈ runStages f l → f s = b := by
  induction l with
  | nil => intro s b h; cases h
  | cons t rest ih =>
    intro s b h
    rcases ht : f t with _ | _
    · simp only [runStages, ht, Bool.false_eq_true, if_false] at h
      rw [List.mem_singleton] at h
      injection h with h1 h2
      subst h1
      subst h2
      exact ht
    · simp only [runStages, ht, if_true] at h
      rcases List.mem_cons.mp h with h | h
      · injection h with h1 h2
        subst h1
        subst h2
        exact ht
      · exact ih s b h

/-! ### Claim theorems -/

/-- Claim C1, counterexample: the identity-order episode equivalence check
does NOT compare every ordinal in `[0, total_episodes)`.  With 11 episodes
that agree on ordinals 0..9 while episode 10's length differs, the code's
check passes although the claimed universally-quantified property fails. -/
theorem claim_C1_counterexample :
    episodeEquivCheck metaC1ref metaC1cand = true ∧
      ¬ episodeEquivSpec metaC1ref metaC1cand :=
  ⟨by decide, by unfold episodeEquivSpec; decide⟩

/-- Claim C1, amended: the episode equivalence check compares the lengths
and tasks exactly for the episode ordinals in
`[0, min(10, total_episodes))`, and fails iff some such ordinal violates
the equality (or is not accessible in one of the datasets). -/
theorem claim_C1_amended (ref cand : DatasetMeta) :
    episodeEquivCheck ref cand = true ↔
      ∀ i, i < min 10 ref.total_episodes →
        (epLengthAt ref cand i = true ∧ epTasksAt ref cand i = true) := by
  unfold episodeEquivCheck episodeLengthCheck episodeTasksCheck
  rw [Bool.and_eq_true, List.all_eq_true, List.all_eq_true]
  constructor
  · rintro ⟨h1, h2⟩ i hi
    exact ⟨h1 i (List.mem_range.mpr hi), h2 i (List.mem_range.mpr hi)⟩
  · intro h
    exact ⟨fun i hi => (h i (List.mem_range.mp hi)).1,
           fun i hi => (h i (List.mem_range.mp hi)).2⟩

/-- Claim C2: the global metadata check passes iff `total_episodes`,
`total_frames`, `total_tasks` and `fps` each agree exactly; in particular a
candidate whose `total_frames` differs by at least one frame fails it. -/
theorem claim_C2 (ref cand : DatasetMeta) :
    (metadataCheck ref cand = true ↔
      (cand.total_episodes = ref.total_episodes ∧
       cand.total_frames = ref.total_frames ∧
       cand.total_tasks = ref.total_tasks ∧
       cand.fps = ref.fps)) ∧
    (cand.total_frames ≠ ref.total_frames → metadataCheck ref cand = false) := by
  have hiff : metadataCheck ref cand = true ↔
      (cand.total_episodes = ref.total_episodes ∧
       cand.total_frames = ref.total_frames ∧
       cand.total_tasks = ref.total_tasks ∧
       cand.fps = ref.fps) := by
    simp [metadataCheck, and_assoc]
  refine ⟨hiff, fun hne => ?_⟩
  rcases h : metadataCheck ref cand with _ | _
  · rfl
  · exact absurd (hiff.mp h).2.1 hne

/-- Claim C2, witness: a candidate one frame short fails the check. -/
theorem claim_C2_witness : metadataCheck metaC2ref metaC2cand = false :=
  (claim_C2 metaC2ref metaC2cand).2 (by decide)

/-- Claim C3, counterexample: the matching tolerance is not purely
absolute.  Candidate episode 0's action value `2 + 3/200000` differs from
the reference's value 2 by `1.5e-5 > 1e-5`, so no reference episode matches
within absolute tolerance `1e-5`; yet the code's check passes, because
`torch.allclose(..., atol=1e-5)` keeps torch's default `rtol=1e-5` and so
accepts a difference up to `1e-5 + 1e-5 * 2 = 3e-5`. -/
theorem claim_C3_counterexample :
    frameDataIntegrityCheck dsNearRef dsNearCand = some true ∧
    0 ∈ shuffleCheckIndices dsNearCand.meta.total_episodes ∧
    absMatchAt dsNearRef dsNearCand 0 = false := by
  refine ⟨?_, by decide, ?_⟩
  · norm_num [frameDataIntegrityCheck, dsNearRef, dsNearCand,
      shuffleCheckIndices, runEpisodeIntegrity, getEpisodeActions, epBase,
      frameTwo, frameTwoEps, List.range', collectActions, findMatchingEpisode,
      episodeMatchB, stackShapeEq, allclose, closeElem, rtolDefault,
      atolDefault, abs_of_nonneg, abs_of_nonpos, abs_sub_comm]
  · norm_num [absMatchAt, dsNearRef, dsNearCand, existsAbsMatch,
      getEpisodeActions, epBase, frameTwo, frameTwoEps, List.range',
      collectActions, stackShapeEq, absClose, atolDefault,
      abs_of_nonneg, abs_of_nonpos, abs_sub_comm]

/-- Claim C3, amended: the permutation-mode frame content check passes iff
for every tested candidate episode (ordinals `0`, `total_episodes // 2`,
`total_episodes - 1`) the first up-to-10 action vectors can be fetched and
some reference episode's first up-to-10 action vectors have the same
stacked shape and agree elementwise within `torch.allclose`'s tolerance
`atol + rtol * |reference value|` with `atol = rtol = 1e-5`; an episode
with no such match (under that tolerance) makes the check fail. -/
theorem claim_C3_amended (ref cand : Dataset) :
    frameDataIntegrityCheck ref cand = some true ↔
      ∀ idx ∈ shuffleCheckIndices cand.meta.total_episodes,
        ∃ acts, getEpisodeActions cand idx = some acts ∧
          ∃ j, j < ref.meta.total_episodes ∧ ∃ a,
            getEpisodeActions ref j = some a ∧
              episodeMatchB acts a = true := by
  rw [frameDataIntegrityCheck, runEpisodeIntegrity_eq_some_true_iff]
  simp only [findMatchingEpisode_eq_true_iff]

/-- Claim C4: for any dataset whose first video key is `k`, the alignment
check passes iff for every episode ordinal below `min(20, total_episodes)`
the `data` chunk/file pair equals the first video key's pair and equals the
`meta/episodes` pair; and a reported mismatch names a tested episode whose
two named stream pairs really diverge. -/
theorem claim_C4 (m : DatasetMeta) (k : String)
    (hk : m.video_keys.head? = some k) :
    (alignmentCheck m = AlignResult.pass ↔
      ∀ i, i < min 20 m.total_episodes →
        ∃ e, m.episodes.get? i = some e ∧ ∃ vp, e.videos.lookup k = some vp ∧
          (e.data_chunk_index, e.data_file_index) = vp ∧
          (e.data_chunk_index, e.data_file_index)
            = (e.meta_chunk_index, e.meta_file_index)) ∧
    (∀ i a b, alignmentCheck m = AlignResult.mismatch i a b →
      i < min 20 m.total_episodes ∧ ∃ e, m.episodes.get? i = some e ∧
        epStreamPair e k a ≠ epStreamPair e k b) := by
  rcases hfs : (List.range (min 20 m.total_episodes)).findSome?
      (alignEpisodeFailure m k) with _ | r
  · have hpass : alignmentCheck m = AlignResult.pass := by
      simp only [alignmentCheck, hk, hfs]
    have hall := List.findSome?_eq_none_iff.mp hfs
    constructor
    · rw [hpass]
      refine iff_of_true rfl fun i hi => ?_
      exact (alignEpisodeFailure_eq_none_iff m k i).mp
        (hall i (List.mem_range.mpr hi))
    · intro i a b hm
      rw [hpass] at hm
      cases hm
  · have hres : alignmentCheck m = r := by
      simp only [alignmentCheck, hk, hfs]
    obtain ⟨x, hxmem, hx⟩ := List.exists_of_findSome?_eq_some hfs
    constructor
    · rw [hres]
      refine iff_of_false (alignEpisodeFailure_ne_pass m k x r hx) ?_
      intro hall
      have hnone := (alignEpisodeFailure_eq_none_iff m k x).mpr
        (hall x (List.mem_range.mp hxmem))
      rw [hnone] at hx
      cases hx
    · intro i a b hm
      rw [hres] at hm
      subst hm
      obtain ⟨hji, e, he, hne⟩ := alignEpisodeFailure_mismatch m k x i a b hx
      subst hji
      exact ⟨List.mem_range.mp hxmem, e, he, hne⟩

/-- Claim C4, witness at a concrete aligned one-episode dataset. -/
theorem claim_C4_witness :
    (alignmentCheck metaOneCam = AlignResult.pass ↔
      ∀ i, i < min 20 metaOneCam.total_episodes →
        ∃ e, metaOneCam.episodes.get? i = some e ∧
          ∃ vp, e.videos.lookup "cam" = some vp ∧
            (e.data_chunk_index, e.data_file_index) = vp ∧
            (e.data_chunk_index, e.data_file_index)
              = (e.meta_chunk_index, e.meta_file_index)) ∧
    (∀ i a b, alignmentCheck metaOneCam = AlignResult.mismatch i a b →
      i < min 20 metaOneCam.total_episodes ∧
        ∃ e, metaOneCam.episodes.get? i = some e ∧
          epStreamPair e "cam" a ≠ epStreamPair e "cam" b) :=
  claim_C4 metaOneCam "cam" (by decide)

/-- Claim C5, counterexample: the sampled-frame comparison is not a purely
absolute-tolerance assertion.  At sampled index 0 the two action values
differ by `1.5e-5 > 1e-5`, yet the code's check passes because
`torch.allclose(..., atol=1e-5)` keeps torch's default `rtol=1e-5`. -/
theorem claim_C5_counterexample :
    frameContentCheck dsNearRef dsNearCand = true ∧
    0 ∈ sampleIndices dsNearRef.meta.total_frames ∧
    absCloseAt dsNearRef dsNearCand 0 = false := by
  refine ⟨?_, by decide, ?_⟩
  · norm_num [frameContentCheck, dsNearRef, dsNearCand, sampleIndices,
      frameSampleAt, allclose, closeElem, rtolDefault, atolDefault, frameTwo,
      frameTwoEps, abs_of_nonneg, abs_of_nonpos, abs_sub_comm]
  · norm_num [absCloseAt, dsNearRef, dsNearCand, absClose, atolDefault,
      frameTwo, frameTwoEps, abs_of_nonneg, abs_of_nonpos, abs_sub_comm]

/-- Claim C5, amended: the identity-order frame content check samples
exactly the deduplicated quartile indices
`{0, N/4, N/2, 3N/4, N-1}` of the reference's `total_frames`, and passes
iff at every sampled index both frames can be fetched, the action vectors
agree elementwise within `torch.allclose`'s tolerance
`atol + rtol * |candidate value|` with `atol = rtol = 1e-5`, and the
`episode_index` labels are exactly equal. -/
theorem claim_C5_amended (ref cand : Dataset) :
    ((sampleIndices ref.meta.total_frames).toFinset =
      ({0, ref.meta.total_frames / 4, ref.meta.total_frames / 2,
        3 * ref.meta.total_frames / 4, ref.meta.total_frames - 1} :
        Finset ℕ)) ∧
    (frameContentCheck ref cand = true ↔
      ∀ idx ∈ sampleIndices ref.meta.total_frames,
        ∃ o a, ref.frames.get? idx = some o ∧ cand.frames.get? idx = some a ∧
          allclose rtolDefault atolDefault o.action a.action = true ∧
          o.episode_index = a.episode_index) := by
  constructor
  · simp [sampleIndices]
  · rw [frameContentCheck, List.all_eq_true]
    simp only [frameSampleAt_eq_true_iff]

/-- Claim C6, counterexample: the full identity-order check of a dataset
against itself is NOT a tautology.  The video decode stage and the
alignment stage test the candidate alone, so a dataset whose decoded frame
holds the out-of-range pixel value 2 fails its own self-check. -/
theorem claim_C6_counterexample : ¬ ∀ D : Dataset, fullCheck D D = true := by
  intro h
  have hfull := h dsBadVideo
  rw [fullCheck] at hfull
  have hv := List.all_eq_true.mp hfull Stage.videoDecode (by decide)
  rw [show stagePasses dsBadVideo dsBadVideo Stage.videoDecode
      = (videoCheck dsBadVideo).isNone from rfl] at hv
  rw [show videoCheck dsBadVideo
      = some ("cam", VideoFailReason.invalidRange) by decide] at hv
  simp at hv

/-- Claim C6, amended: `check(D, D, identity-order)` passes for every
dataset `D` that itself satisfies the two candidate-only stages — decoded
video frames valid and chunk/file streams aligned — and whose episode and
frame containers cover the counts in its metadata.  All binary comparison
stages (metadata, episode equivalence, frame content) hold reflexively. -/
theorem claim_C6_amended (D : Dataset)
    (hep : min 10 D.meta.total_episodes ≤ D.meta.episodes.length)
    (hfr1 : 1 ≤ D.meta.total_frames)
    (hfr2 : D.meta.total_frames ≤ D.frames.length)
    (hv : videoCheck D = none)
    (ha : alignmentCheck D.meta = AlignResult.pass) :
    fullCheck D D = true := by
  rw [fullCheck, List.all_eq_true]
  intro s hs
  cases s
  case metadata => simp [stagePasses, metadataCheck]
  case episodeLengths =>
    show episodeLengthCheck D.meta D.meta = true
    rw [episodeLengthCheck, List.all_eq_true]
    intro i hi
    exact epLengthAt_self D.meta i (lt_of_lt_of_le (List.mem_range.mp hi) hep)
  case episodeTasks =>
    show episodeTasksCheck D.meta D.meta = true
    rw [episodeTasksCheck, List.all_eq_true]
    intro i hi
    exact epTasksAt_self D.meta i (lt_of_lt_of_le (List.mem_range.mp hi) hep)
  case frameSamples =>
    show frameContentCheck D D = true
    rw [frameContentCheck, List.all_eq_true]
    intro idx hidx
    exact frameSampleAt_self D idx
      (lt_of_lt_of_le (sampleIndices_lt D.meta.total_frames hfr1 idx hidx) hfr2)
  case videoDecode =>
    show (videoCheck D).isNone = true
    rw [hv]
    rfl
  case fileAlignment =>
    show decide (alignmentCheck D.meta = AlignResult.pass) = true
    rw [ha]
    simp

/-- Claim C6, witness: a concrete well-formed dataset passes its own full
check. -/
theorem claim_C6_witness : fullCheck dsGood dsGood = true :=
  claim_C6_amended dsGood (by decide) (by decide) (by decide) (by decide)
    (by decide)

/-- Claim C7: under accessibility of every video key (frame 0 exists, the
key maps to a nonempty decoded tensor), the video decode check passes iff
every key's image is 3-dimensional with leading dimension 3 and all values
in `[0, 1]`; and when all shapes are valid but some key's image holds a
value above 1, the check fails for some key citing the pixel range. -/
theorem claim_C7 (cand : Dataset)
    (hwf : cand.meta.video_keys.all (videoKeyAccessOk cand) = true) :
    (videoCheck cand = none ↔
      ∀ k ∈ cand.meta.video_keys, ∀ img, lookupImage cand k = some img →
        (img.shape.length = 3 ∧ img.shape.headD 0 = 3 ∧
         ∀ v ∈ img.values, 0 ≤ v ∧ v ≤ 1)) ∧
    ((∀ k ∈ cand.meta.video_keys, ∀ img, lookupImage cand k = some img →
        imageShapeOk img = true) →
     (∃ k ∈ cand.meta.video_keys, ∃ img, lookupImage cand k = some img ∧
        ∃ v ∈ img.values, 1 < v) →
     ∃ k, videoCheck cand = some (k, VideoFailReason.invalidRange)) := by
  have hwf' := List.all_eq_true.mp hwf
  have h1 : videoCheck cand = none ↔
      ∀ k ∈ cand.meta.video_keys, videoKeyFailure cand k = none := by
    rw [videoCheck, List.findSome?_eq_none_iff]
    simp only [Option.map_eq_none']
  constructor
  · rw [h1]
    constructor
    · intro hn k hk img himg
      obtain ⟨img2, hl2, hne2⟩ := (videoKeyAccessOk_iff cand k).mp (hwf' k hk)
      rw [himg, Option.some_inj] at hl2
      subst hl2
      obtain ⟨hs, hrange⟩ :=
        (videoKeyFailure_eq_none_iff cand k img himg hne2).mp (hn k hk)
      rw [imageShapeOk, Bool.and_eq_true, decide_eq_true_eq,
        decide_eq_true_eq] at hs
      exact ⟨hs.1, hs.2, hrange⟩
    · intro hprop k hk
      obtain ⟨img, hl, hne⟩ := (videoKeyAccessOk_iff cand k).mp (hwf' k hk)
      obtain ⟨hs1, hs2, hrange⟩ := hprop k hk img hl
      refine (videoKeyFailure_eq_none_iff cand k img hl hne).mpr ⟨?_, hrange⟩
      rw [imageShapeOk, Bool.and_eq_true]
      exact ⟨decide_eq_true hs1, decide_eq_true hs2⟩
  · intro hshape hbad
    have hnn : videoCheck cand ≠ none := by
      rw [ne_eq, h1]
      intro hall
      obtain ⟨k, hk, img, hl, v, hvmem, hv1⟩ := hbad
      have hall2 := (videoKeyFailure_eq_none_iff cand k img hl
        (List.ne_nil_of_mem hvmem)).mp (hall k hk)
      exact absurd (hall2.2 v hvmem).2 (not_le.mpr hv1)
    rcases hvc : videoCheck cand with _ | pr
    · exact absurd hvc hnn
    · rw [videoCheck] at hvc
      obtain ⟨k2, hk2, hsome⟩ := List.exists_of_findSome?_eq_some hvc
      rcases hfk : videoKeyFailure cand k2 with _ | r
      · rw [hfk] at hsome
        cases hsome
      · rw [hfk] at hsome
        rw [Option.map_some', Option.some_inj] at hsome
        obtain ⟨img, hl, hne⟩ := (videoKeyAccessOk_iff cand k2).mp (hwf' k2 hk2)
        have hs := hshape k2 hk2 img hl
        rcases videoKeyFailure_of_wf cand k2 img hl hne hs with hnone | hrange
        · rw [hnone] at hfk
          cases hfk
        · rw [hrange, Option.some_inj] at hfk
          subst hfk
          refine ⟨k2, ?_⟩
          rw [← hsome]

/-- Claim C7, witness: a dataset whose only video key decodes to a frame
with a pixel value of 2 fails citing the pixel range. -/
theorem claim_C7_witness :
    ∃ k, videoCheck dsBadVideo = some (k, VideoFailReason.invalidRange) :=
  (claim_C7 dsBadVideo (by decide)).2
    (by intro k hk img himg
        have hk2 : k = "cam" := List.mem_singleton.mp hk
        subst hk2
        have hli : lookupImage dsBadVideo "cam" = some imgBad := by decide
        rw [hli, Option.some_inj] at himg
        subst himg
        decide)
    ⟨"cam", by decide, imgBad, by decide, 2, by decide, by norm_num⟩

/-- Claim C8, counterexample: the order-change negative check is guarded by
`total_episodes >= 5` first.  With four episodes of alternating tasks
(hence at least two distinct task tuples among the first N) and a candidate
whose first-N tasks sequence is identical to the reference's, the check is
skipped entirely instead of failing. -/
theorem claim_C8_counterexample :
    1 < ((firstTasks metaC8ref
        (min 10 metaC8ref.total_episodes)).getD []).dedup.length ∧
    firstTasks metaC8cand (min 10 metaC8ref.total_episodes)
      = firstTasks metaC8ref (min 10 metaC8ref.total_episodes) ∧
    shuffleOrderCheck metaC8ref metaC8cand
      ≠ OrderCheckResult.failed := by
  refine ⟨by decide, by decide, ?_⟩
  decide

/-- Claim C8, amended: when `total_episodes >= 5`, with
`N = min(10, total_episodes)` and both first-N task lists accessible, the
order-change check fails iff at least two distinct task tuples occur among
the reference's first-N AND the candidate's first-N sequence is identical
to the reference's; with fewer than two distinct tuples it reports the
non-fatal same-task advisory; with fewer than 5 episodes it is skipped. -/
theorem claim_C8_amended (ref cand : DatasetMeta)
    (h5 : 5 ≤ ref.total_episodes) (ot st : List (List String))
    (hot : firstTasks ref (min 10 ref.total_episodes) = some ot)
    (hst : firstTasks cand (min 10 ref.total_episodes) = some st) :
    (1 < ot.dedup.length →
      (shuffleOrderCheck ref cand = OrderCheckResult.failed ↔ ot = st)) ∧
    (¬ 1 < ot.dedup.length →
      shuffleOrderCheck ref cand = OrderCheckResult.inconclusiveSameTask) := by
  have heq : shuffleOrderCheck ref cand =
      (if 1 < ot.dedup.length then
        (if decide (ot = st) = true then OrderCheckResult.failed
         else OrderCheckResult.passed)
       else OrderCheckResult.inconclusiveSameTask) := by
    simp only [shuffleOrderCheck, if_pos h5, hot, hst]
  refine ⟨fun h2 => ?_, fun h2 => ?_⟩
  · rw [heq, if_pos h2]
    by_cases he : ot = st
    · rw [if_pos (decide_eq_true he)]
      exact iff_of_true rfl he
    · rw [if_neg (by simp [he])]
      exact iff_of_false (by simp) he
  · rw [heq, if_neg h2]

/-- Claim C8, witness: with five alternating-task episodes and an identical
candidate order, the order-change check fails. -/
theorem claim_C8_witness :
    shuffleOrderCheck metaC8w metaC8w = OrderCheckResult.failed :=
  ((claim_C8_amended metaC8w metaC8w (by decide)
      [["A"], ["B"], ["A"], ["B"], ["A"]] [["A"], ["B"], ["A"], ["B"], ["A"]]
      (by decide) (by decide)).1 (by decide)).mpr rfl

/-- Claim C9, counterexample: the scripts run plain `assert`s, so a failed
stage aborts the run; later stages are never executed and appear in no
report.  With a candidate whose `total_frames` differs, the executed-stage
trace stops at the metadata stage and the alignment stage never runs. -/
theorem claim_C9_counterexample :
    stagePasses dsFramesRef dsFramesCand Stage.metadata = false ∧
    (runValidation dsFramesRef dsFramesCand).map Prod.fst ≠ allStages ∧
    Stage.fileAlignment ∉
      (runValidation dsFramesRef dsFramesCand).map Prod.fst := by
  refine ⟨by decide, by decide, by decide⟩

/-- Claim C9, amended: the validation aborts at the first failing stage:
the executed-stage trace is exactly the prefix of the stage list up to and
including the first stage whose asserts fail (all stages when none fails),
and every recorded outcome is that stage's true outcome. -/
theorem claim_C9_amended (ref cand : Dataset) :
    ((runValidation ref cand).map Prod.fst =
      allStages.take
        (allStages.findIdx (fun s => !stagePasses ref cand s) + 1)) ∧
    (∀ s b, (s, b) ∈ runValidation ref cand → stagePasses ref cand s = b) :=
  ⟨runStages_map_fst (stagePasses ref cand) allStages,
   runStages_mem (stagePasses ref cand) allStages⟩

/-- Claim C9, witness: the amended statement at the concrete
metadata-mismatch pair. -/
theorem claim_C9_witness :
    ((runValidation dsFramesRef dsFramesCand).map Prod.fst =
      allStages.take
        (allStages.findIdx
          (fun s => !stagePasses dsFramesRef dsFramesCand s) + 1)) ∧
    (∀ s b, (s, b) ∈ runValidation dsFramesRef dsFramesCand →
      stagePasses dsFramesRef dsFramesCand s = b) :=
  claim_C9_amended dsFramesRef dsFramesCand

/-- Claim C10: in the permutation-mode episode matching search, a reference
episode whose action fetch raises is skipped (it simply cannot witness the
search) and the scan continues over the remaining episodes; with the
candidate-side fetch succeeding, the stage completes with a boolean rather
than propagating an error, and the search succeeds iff SOME reference
episode below `total_episodes` both fetches successfully and matches. -/
theorem claim_C10 (ref cand : Dataset) (idx : Nat) (acts : List (List ℚ))
    (h : getEpisodeActions cand idx = some acts) :
    episodeIntegrityAt ref cand idx
        = some (findMatchingEpisode ref acts) ∧
    (findMatchingEpisode ref acts = true ↔
      ∃ j, j < ref.meta.total_episodes ∧ ∃ a,
        getEpisodeActions ref j = some a ∧ episodeMatchB acts a = true) := by
  refine ⟨?_, findMatchingEpisode_eq_true_iff ref acts⟩
  unfold episodeIntegrityAt
  rw [h]

/-- Claim C10, witness: reference episode 0's fetch raises (empty frame
range) yet the stage result at the concrete pair is still a boolean. -/
theorem claim_C10_witness :
    getEpisodeActions dsSkipRef 0 = none ∧
    (episodeIntegrityAt dsSkipRef dsSkipCand 0
        = some (findMatchingEpisode dsSkipRef [[2]]) ∧
      (findMatchingEpisode dsSkipRef [[2]] = true ↔
        ∃ j, j < dsSkipRef.meta.total_episodes ∧ ∃ a,
          getEpisodeActions dsSkipRef j = some a ∧
            episodeMatchB [[2]] a = true)) :=
  ⟨by decide, claim_C10 dsSkipRef dsSkipCand 0 [[2]] (by decide)⟩

end LerobotCheck

